import Mathlib

/-!
Verification of the authentication backend (src/index.js) against its
natural-language specification.

The JavaScript source is shallowly embedded: the JWT helper functions,
the route handlers and the repository interactions become pure Lean
functions over explicit state (the user table is a `List Account`,
time is a `Nat` of seconds, a signed JWT is a record carrying its
payload, the name of the secret it was signed with, and its absolute
expiry).  The `jsonwebtoken` library is modelled by `jwtSign` /
`jwtVerify`: `jwt.sign` with `expiresIn` embeds `exp = now + ttl`, and
`jwt.verify` fails when the secret differs or when the clock is at or
past `exp` (the library check is `clockTimestamp >= exp`).
-/

namespace ChatbotBackend

/-- Payload of a signed JWT as produced by src/index.js: the access
token embeds id, email and name (line 40); the refresh token embeds
only the id (line 43), so email and name are optional fields here. -/
structure Payload where
  id : Nat
  email : Option String
  name : Option String
  deriving DecidableEq, Repr

/-- Model of a signed JWT: the payload, the secret it was signed with
(represented by the secret string itself), and the absolute expiry
timestamp in seconds. -/
structure Jwt where
  payload : Payload
  secret : String
  exp : Nat
  deriving DecidableEq, Repr

/-- Verification errors of the jsonwebtoken library that matter here. -/
inductive JwtError where
  | invalidSignature
  | expired
  deriving DecidableEq, Repr

/-- Model of jwt.sign(payload, secret, expiresIn ttl) at time `now`
(seconds): embeds the absolute expiry `now + ttl`. -/
def jwtSign (payload : Payload) (secret : String) (ttl : Nat) (now : Nat) : Jwt :=
  ⟨payload, secret, now + ttl⟩

/-- Model of jwt.verify(token, secret) at time `now`: fails if the
signing secret differs, fails if `now ≥ exp` (the library rejects
exactly at the expiry timestamp), otherwise returns the payload. -/
def jwtVerify (tok : Jwt) (secret : String) (now : Nat) : Except JwtError Payload :=
  if tok.secret ≠ secret then .error .invalidSignature
  else if now ≥ tok.exp then .error .expired
  else .ok tok.payload

/-- Account row of the `users` table: id, name, email, optional
password_hash (absent for accounts created by Google sign-in),
optional google_id (absent for accounts created by local signup). -/
structure Account where
  id : Nat
  name : String
  email : String
  password_hash : Option String
  google_id : Option String
  deriving DecidableEq, Repr

/-- Immutable process configuration: the two signing secrets
(process.env.JWT_SECRET and process.env.REFRESH_TOKEN_SECRET). -/
structure Config where
  jwtSecret : String
  refreshSecret : String
  deriving DecidableEq, Repr

/-- src/index.js lines 39-40: createAccessToken signs id, email and
name with JWT_SECRET and a 15-minute (900 s) expiry. -/
def createAccessToken (user : Account) (cfg : Config) (now : Nat) : Jwt :=
  jwtSign ⟨user.id, some user.email, some user.name⟩ cfg.jwtSecret (15 * 60) now

/-- src/index.js lines 42-43: createRefreshToken signs only the id
with REFRESH_TOKEN_SECRET and a 7-day (604800 s) expiry. -/
def createRefreshToken (user : Account) (cfg : Config) (now : Nat) : Jwt :=
  jwtSign ⟨user.id, none, none⟩ cfg.refreshSecret (7 * 24 * 60 * 60) now

/-- HTTP-level outcome of a handler: status code, JSON message, and
the cookies the handler sets (access and refresh tokens). -/
structure Response where
  status : Nat
  message : String
  accessCookie : Option Jwt := none
  refreshCookie : Option Jwt := none
  deriving DecidableEq, Repr

/-- src/index.js lines 45-55, the verifyAccessToken middleware: with
no accessToken cookie it responds 401 "Unauthorized"; with a cookie it
verifies against JWT_SECRET and on failure responds 401 "Invalid or
expired token", on success passes the decoded payload through. -/
def verifyAccessToken (cookie : Option Jwt) (cfg : Config) (now : Nat) :
    Except Response Payload :=
  match cookie with
  | none => .error ⟨401, "Unauthorized", none, none⟩
  | some tok =>
    match jwtVerify tok cfg.jwtSecret now with
    | .ok p => .ok p
    | .error _ => .error ⟨401, "Invalid or expired token", none, none⟩

/-- Point lookup used by the handlers: SELECT * FROM users WHERE
email equals the argument; the rows come back in table order. -/
def selectByEmail (repo : List Account) (email : String) : List Account :=
  repo.filter (fun a => a.email == email)

/-- SELECT * FROM users WHERE google_id equals the argument. -/
def selectByGoogleId (repo : List Account) (gid : String) : List Account :=
  repo.filter (fun a => a.google_id == some gid)

/-- SELECT * FROM users WHERE id equals the argument. -/
def selectById (repo : List Account) (i : Nat) : List Account :=
  repo.filter (fun a => a.id == i)

/-- src/index.js lines 89-110, the /signin handler.  `compare` is the
opaque bcrypt.compare capability.  An empty lookup and a failed
compare both answer 400 "Invalid email or password"; a row whose
password_hash is NULL makes bcrypt.compare reject (its hash argument
is required), which the catch-all turns into 500 "Server error". -/
def signinHandler (email password : String) (repo : List Account)
    (compare : String → String → Bool) (cfg : Config) (now : Nat) : Response :=
  match (selectByEmail repo email).head? with
  | none => ⟨400, "Invalid email or password", none, none⟩
  | some user =>
    match user.password_hash with
    | none => ⟨500, "Server error", none, none⟩
    | some h =>
      if compare password h then
        ⟨200, "Login successful",
          some (createAccessToken user cfg now),
          some (createRefreshToken user cfg now)⟩
      else ⟨400, "Invalid email or password", none, none⟩

/-- src/index.js lines 165-180, the /refresh_token handler.  With no
cookie: 401 "No refresh token provided".  If jwt.verify fails: 401
"Invalid or expired refresh token".  If it succeeds the handler reads
rows[0] of the id lookup without checking emptiness; a missing account
makes createAccessToken(undefined) throw, and the same catch answers
401 "Invalid or expired refresh token".  Otherwise it mints a fresh
access token from the current row. -/
def refreshTokenHandler (cookie : Option Jwt) (repo : List Account)
    (cfg : Config) (now : Nat) : Response :=
  match cookie with
  | none => ⟨401, "No refresh token provided", none, none⟩
  | some tok =>
    match jwtVerify tok cfg.refreshSecret now with
    | .error _ => ⟨401, "Invalid or expired refresh token", none, none⟩
    | .ok decoded =>
      match (selectById repo decoded.id).head? with
      | none => ⟨401, "Invalid or expired refresh token", none, none⟩
      | some user =>
        ⟨200, "Access token refreshed",
          some (createAccessToken user cfg now), none⟩

/-- Largest id in the table plus one: models the serial primary key
value the INSERT ... RETURNING * row comes back with. -/
def nextId (repo : List Account) : Nat :=
  repo.foldr (fun a m => max a.id m) 0 + 1

/-- src/index.js line 136: UPDATE users SET google_id equal to the
given value on the row(s) with the given id. -/
def updateGoogleId (repo : List Account) (i : Nat) (gid : String) : List Account :=
  repo.map (fun a => if a.id == i then { a with google_id := some gid } else a)

/-- src/index.js lines 128-147: the account-resolution branch of the
Google sign-in handler over the repository state.  Branch 1: a row
with the google_id exists, return it unchanged.  Branch 2: a row with
the email exists, bind it to `user` (the row as read, before the
UPDATE) and set its google_id in the table.  Branch 3: insert a new
row with name, email and google_id and no password_hash.  Returns the
row the handler binds to `user` together with the table afterwards. -/
def resolveExternal (repo : List Account) (gid nm em : String) :
    Account × List Account :=
  match (selectByGoogleId repo gid).head? with
  | some user => (user, repo)
  | none =>
    match (selectByEmail repo em).head? with
    | some user => (user, updateGoogleId repo user.id gid)
    | none =>
      (⟨nextId repo, nm, em, none, some gid⟩,
        repo ++ [⟨nextId repo, nm, em, none, some gid⟩])

/-- Number of rows carrying the given email. -/
def countEmail (repo : List Account) (em : String) : Nat :=
  (selectByEmail repo em).length

/-- Identity claims extracted from a verified Google id token
(src/index.js line 125): sub (the google id), email and name. -/
structure VerifiedIdentity where
  sub : String
  email : String
  name : String
  deriving DecidableEq, Repr

/-- Outcomes of the awaited repository calls made by the Google
sign-in handler during one request: each query either returns its
rows (or the inserted row) or throws. -/
structure DbOracle where
  selectGid : String → Except Unit (List Account)
  selectEmail : String → Except Unit (List Account)
  insertUser : String → String → String → Except Unit Account
  updateGid : String → Nat → Except Unit Unit

/-- The 200 response of the Google sign-in handler: cookies for a
fresh access and refresh token minted from the resolved row. -/
def googleSuccess (user : Account) (cfg : Config) (now : Nat) : Response :=
  ⟨200, "Google login successful",
    some (createAccessToken user cfg now),
    some (createRefreshToken user cfg now)⟩

/-- src/index.js lines 114-161: the Google sign-in handler with the
external verification outcome and the repository call outcomes
supplied explicitly.  Every thrown error — failed token verification
or any failed repository call — lands in the single catch, which
answers 401 "Google authentication failed". -/
def googleAuthHandler (verify : Except Unit VerifiedIdentity) (db : DbOracle)
    (cfg : Config) (now : Nat) : Response :=
  match verify with
  | .error _ => ⟨401, "Google authentication failed", none, none⟩
  | .ok p =>
    match db.selectGid p.sub with
    | .error _ => ⟨401, "Google authentication failed", none, none⟩
    | .ok rows =>
      match rows.head? with
      | some user => googleSuccess user cfg now
      | none =>
        match db.selectEmail p.email with
        | .error _ => ⟨401, "Google authentication failed", none, none⟩
        | .ok rows2 =>
          match rows2.head? with
          | some user =>
            match db.updateGid p.sub user.id with
            | .error _ => ⟨401, "Google authentication failed", none, none⟩
            | .ok _ => googleSuccess user cfg now
          | none =>
            match db.insertUser p.name p.email p.sub with
            | .error _ => ⟨401, "Google authentication failed", none, none⟩
            | .ok user => googleSuccess user cfg now

/-- C1: verifying a freshly minted access token before its 15-minute
expiry returns the identity claim unchanged; verifying at or after the
expiry instant fails (the exact boundary fails, it does not succeed). -/
theorem access_roundtrip_and_expiry (user : Account) (cfg : Config)
    (tMint tVerify : Nat) :
    (tVerify < tMint + 900 →
      jwtVerify (createAccessToken user cfg tMint) cfg.jwtSecret tVerify =
        .ok ⟨user.id, some user.email, some user.name⟩) ∧
    (tVerify ≥ tMint + 900 →
      jwtVerify (createAccessToken user cfg tMint) cfg.jwtSecret tVerify =
        .error .expired) := by
  constructor
  · intro h
    simp [createAccessToken, jwtSign, jwtVerify, Nat.not_le_of_lt h]
  · intro h
    simp [createAccessToken, jwtSign, jwtVerify, h]

/-- Witness for C1 at a concrete account and concrete times on both
sides of the boundary. -/
theorem access_roundtrip_and_expiry_witness :
    jwtVerify (createAccessToken ⟨1, "Alice", "a@x.com", none, none⟩ ⟨"s1", "s2"⟩ 100)
        "s1" 999 = .ok ⟨1, some "a@x.com", some "Alice"⟩ ∧
    jwtVerify (createAccessToken ⟨1, "Alice", "a@x.com", none, none⟩ ⟨"s1", "s2"⟩ 100)
        "s1" 1000 = .error .expired := by
  refine ⟨?_, ?_⟩
  · exact (access_roundtrip_and_expiry ⟨1, "Alice", "a@x.com", none, none⟩
      ⟨"s1", "s2"⟩ 100 999).1 (by decide)
  · exact (access_roundtrip_and_expiry ⟨1, "Alice", "a@x.com", none, none⟩
      ⟨"s1", "s2"⟩ 100 1000).2 (by decide)

/-- C2: with distinct access and refresh secrets, a refresh token
never verifies under the access secret and an access token never
verifies under the refresh secret, whatever the account and times. -/
theorem token_domain_separation (cfg : Config)
    (hsec : cfg.jwtSecret ≠ cfg.refreshSecret)
    (u v : Account) (tMint tVerify sMint sVerify : Nat) :
    jwtVerify (createRefreshToken u cfg tMint) cfg.jwtSecret tVerify =
      .error .invalidSignature ∧
    jwtVerify (createAccessToken v cfg sMint) cfg.refreshSecret sVerify =
      .error .invalidSignature := by
  constructor
  · simp [createRefreshToken, jwtSign, jwtVerify, Ne.symm hsec]
  · simp [createAccessToken, jwtSign, jwtVerify, hsec]

/-- Witness for C2 at concrete distinct secrets and the same account
id in both payloads. -/
theorem token_domain_separation_witness :
    jwtVerify (createRefreshToken ⟨7, "A", "a@x.com", none, none⟩ ⟨"s1", "s2"⟩ 0)
        "s1" 10 = .error .invalidSignature ∧
    jwtVerify (createAccessToken ⟨7, "A", "a@x.com", none, none⟩ ⟨"s1", "s2"⟩ 0)
        "s2" 10 = .error .invalidSignature :=
  token_domain_separation ⟨"s1", "s2"⟩ (by decide)
    ⟨7, "A", "a@x.com", none, none⟩ ⟨7, "A", "a@x.com", none, none⟩ 0 10 0 10

/-- C4 counterexample: the two failing guard paths are visible at
concrete inputs — no cookie answers message "Unauthorized" while a
forged token answers message "Invalid or expired token", so the
caller-visible failures are not identical in message. -/
theorem guard_messages_differ_counterexample :
    verifyAccessToken none ⟨"s1", "s2"⟩ 0 =
      .error ⟨401, "Unauthorized", none, none⟩ ∧
    verifyAccessToken (some ⟨⟨1, none, none⟩, "bad", 1000⟩) ⟨"s1", "s2"⟩ 0 =
      .error ⟨401, "Invalid or expired token", none, none⟩ ∧
    "Unauthorized" ≠ "Invalid or expired token" := by
  refine ⟨rfl, rfl, by decide⟩

/-- C4 amended: both failing guard paths answer status 401, but with
different messages — "Unauthorized" when no token is presented and
"Invalid or expired token" when a token is present but fails
verification; only the status code is collapsed. -/
theorem guard_failures_both_401 (cfg : Config) (now : Nat) (tok : Jwt)
    (e : JwtError) (hfail : jwtVerify tok cfg.jwtSecret now = .error e) :
    verifyAccessToken none cfg now = .error ⟨401, "Unauthorized", none, none⟩ ∧
    verifyAccessToken (some tok) cfg now =
      .error ⟨401, "Invalid or expired token", none, none⟩ := by
  exact ⟨rfl, by simp [verifyAccessToken, hfail]⟩

/-- Witness for the amended C4 at a concrete forged token. -/
theorem guard_failures_both_401_witness :
    verifyAccessToken none ⟨"s1", "s2"⟩ 5 =
      .error ⟨401, "Unauthorized", none, none⟩ ∧
    verifyAccessToken (some ⟨⟨1, none, none⟩, "bad", 1000⟩) ⟨"s1", "s2"⟩ 5 =
      .error ⟨401, "Invalid or expired token", none, none⟩ :=
  guard_failures_both_401 ⟨"s1", "s2"⟩ 5 ⟨⟨1, none, none⟩, "bad", 1000⟩
    .invalidSignature rfl

/-- C3 counterexample: a refresh token that verifies under the
refresh secret but whose account id (7) has no row in the (empty)
repository produces 401 "Invalid or expired refresh token" — byte for
byte the same response as a forged refresh token, with no distinct
AccountNotFound outcome. -/
theorem refresh_missing_account_counterexample :
    refreshTokenHandler
        (some (createRefreshToken ⟨7, "G", "g@x.com", none, none⟩ ⟨"s1", "s2"⟩ 0))
        [] ⟨"s1", "s2"⟩ 10 =
      ⟨401, "Invalid or expired refresh token", none, none⟩ ∧
    refreshTokenHandler
        (some (createRefreshToken ⟨7, "G", "g@x.com", none, none⟩ ⟨"s1", "s2"⟩ 0))
        [] ⟨"s1", "s2"⟩ 10 =
      refreshTokenHandler (some ⟨⟨7, none, none⟩, "forged", 999⟩) [] ⟨"s1", "s2"⟩ 10 :=
  ⟨rfl, rfl⟩

/-- C3 amended: when a refresh token verifies but its account id has
no row, the handler reads rows[0] of an empty result, the thrown error
hits the same catch, and the caller sees the same 401 "Invalid or
expired refresh token" as for an invalid token; no distinct
AccountNotFound error exists. -/
theorem refresh_missing_account_same_401 (cfg : Config) (repo : List Account)
    (tok : Jwt) (now : Nat) (p : Payload)
    (hok : jwtVerify tok cfg.refreshSecret now = .ok p)
    (hmiss : selectById repo p.id = []) :
    refreshTokenHandler (some tok) repo cfg now =
      ⟨401, "Invalid or expired refresh token", none, none⟩ := by
  simp [refreshTokenHandler, hok, hmiss]

/-- Witness for the amended C3: valid token for id 7, empty table. -/
theorem refresh_missing_account_same_401_witness :
    refreshTokenHandler
        (some (createRefreshToken ⟨7, "G", "g@x.com", none, none⟩ ⟨"s1", "s2"⟩ 0))
        [] ⟨"s1", "s2"⟩ 10 =
      ⟨401, "Invalid or expired refresh token", none, none⟩ :=
  refresh_missing_account_same_401 ⟨"s1", "s2"⟩ []
    (createRefreshToken ⟨7, "G", "g@x.com", none, none⟩ ⟨"s1", "s2"⟩ 0)
    10 ⟨7, none, none⟩ rfl rfl

/-- C6: refreshing with a still-valid refresh token minted from an
older snapshot of the account yields an access token whose claim
carries the name and email of the row currently in the repository,
and the refresh claim itself carries only the account id. -/
theorem refresh_uses_current_account (cfg : Config) (repo : List Account)
    (uOld uCur : Account) (tMint now : Nat)
    (hfresh : now < tMint + 7 * 24 * 60 * 60)
    (hfind : (selectById repo uOld.id).head? = some uCur) :
    (createRefreshToken uOld cfg tMint).payload = ⟨uOld.id, none, none⟩ ∧
    refreshTokenHandler (some (createRefreshToken uOld cfg tMint)) repo cfg now =
      ⟨200, "Access token refreshed", some (createAccessToken uCur cfg now), none⟩ ∧
    (createAccessToken uCur cfg now).payload =
      ⟨uCur.id, some uCur.email, some uCur.name⟩ := by
  have hne : ¬ now ≥ tMint + 7 * 24 * 60 * 60 := by omega
  refine ⟨rfl, ?_, rfl⟩
  simp [refreshTokenHandler, createRefreshToken, jwtSign, jwtVerify, hne, hfind]

/-- Witness for C6: the account name and email change between mint
time and refresh time; the refreshed claim shows the new values. -/
theorem refresh_uses_current_account_witness :
    refreshTokenHandler
        (some (createRefreshToken ⟨7, "Old Name", "old@x.com", none, none⟩
          ⟨"s1", "s2"⟩ 0))
        [⟨7, "New Name", "new@x.com", none, none⟩] ⟨"s1", "s2"⟩ 100 =
      ⟨200, "Access token refreshed",
        some (createAccessToken ⟨7, "New Name", "new@x.com", none, none⟩
          ⟨"s1", "s2"⟩ 100), none⟩ ∧
    (createAccessToken ⟨7, "New Name", "new@x.com", none, none⟩
        ⟨"s1", "s2"⟩ 100).payload = ⟨7, some "new@x.com", some "New Name"⟩ := by
  have h := refresh_uses_current_account ⟨"s1", "s2"⟩
    [⟨7, "New Name", "new@x.com", none, none⟩]
    ⟨7, "Old Name", "old@x.com", none, none⟩
    ⟨7, "New Name", "new@x.com", none, none⟩ 0 100 (by decide) rfl
  exact ⟨h.2.1, h.2.2⟩

/-- C8: signin with an email absent from the table and signin with a
present email whose stored hash rejects the supplied password answer
the identical response: 400 "Invalid email or password". -/
theorem signin_enumeration_resistance (repo : List Account)
    (compare : String → String → Bool) (cfg : Config) (now : Nat)
    (emailA pwA emailB pwB : String) (u : Account) (h : String)
    (hA : selectByEmail repo emailA = [])
    (hB : (selectByEmail repo emailB).head? = some u)
    (hhash : u.password_hash = some h)
    (hwrong : compare pwB h = false) :
    signinHandler emailA pwA repo compare cfg now =
      ⟨400, "Invalid email or password", none, none⟩ ∧
    signinHandler emailB pwB repo compare cfg now =
      ⟨400, "Invalid email or password", none, none⟩ := by
  constructor
  · simp [signinHandler, hA]
  · simp [signinHandler, hB, hhash, hwrong]

/-- Witness for C8: one stored account, an unknown email and a wrong
password against the known email give the same response. -/
theorem signin_enumeration_resistance_witness :
    signinHandler "b@x.com" "pw" [⟨1, "A", "a@x.com", some "H", none⟩]
        (fun p h0 => p == "pw" && h0 == "H") ⟨"s1", "s2"⟩ 0 =
      ⟨400, "Invalid email or password", none, none⟩ ∧
    signinHandler "a@x.com" "wrong" [⟨1, "A", "a@x.com", some "H", none⟩]
        (fun p h0 => p == "pw" && h0 == "H") ⟨"s1", "s2"⟩ 0 =
      ⟨400, "Invalid email or password", none, none⟩ :=
  signin_enumeration_resistance [⟨1, "A", "a@x.com", some "H", none⟩]
    (fun p h0 => p == "pw" && h0 == "H") ⟨"s1", "s2"⟩ 0
    "b@x.com" "pw" "a@x.com" "wrong" ⟨1, "A", "a@x.com", some "H", none⟩ "H"
    rfl rfl rfl rfl

/-- Helper: the head of a list, when present, is a member. -/
theorem mem_of_head?_eq {α : Type} {l : List α} {a : α}
    (h : l.head? = some a) : a ∈ l := by
  cases l with
  | nil => simp at h
  | cons b t => simp at h; exact h ▸ List.mem_cons_self b t

/-- Helper: updating google_id on a row does not change which rows an
email lookup returns, up to the update itself, so the email count is
preserved. -/
theorem countEmail_updateGoogleId (repo : List Account) (i : Nat)
    (gid em : String) :
    countEmail (updateGoogleId repo i gid) em = countEmail repo em := by
  unfold countEmail selectByEmail updateGoogleId
  rw [List.filter_map, List.length_map]
  congr 1
  apply List.filter_congr
  intro a _
  simp only [Function.comp]
  split <;> rfl

/-- Helper: with pairwise-distinct ids, filtering the table for the
id of a member row returns exactly that row. -/
theorem filter_id_eq_single (repo : List Account) (u : Account)
    (hu : u ∈ repo) (hnodup : (repo.map Account.id).Nodup) :
    repo.filter (fun a => a.id == u.id) = [u] := by
  induction repo with
  | nil => cases hu
  | cons b t ih =>
    rw [List.map_cons, List.nodup_cons] at hnodup
    obtain ⟨hb, ht⟩ := hnodup
    rcases List.mem_cons.mp hu with h | h
    · subst h
      have hnil : t.filter (fun a => a.id == u.id) = [] := by
        rw [List.filter_eq_nil_iff]
        intro a ha
        simp only [beq_iff_eq]
        intro hid
        exact hb (hid ▸ List.mem_map_of_mem Account.id ha)
      rw [List.filter_cons, if_pos (by simp), hnil]
    · have hbne : (b.id == u.id) = false := by
        have hmem : u.id ∈ t.map Account.id := List.mem_map_of_mem Account.id h
        simp only [beq_eq_false_iff_ne, ne_eq]
        intro he
        exact hb (he ▸ hmem)
      rw [List.filter_cons]
      simp only [hbne, Bool.false_eq_true, if_neg, not_false_iff]
      exact ih h ht

/-- Helper: when no row carries the google_id, looking it up after
linking it onto the member row with the given id returns exactly the
linked row. -/
theorem selectByGoogleId_after_update (repo : List Account) (u : Account)
    (gid : String)
    (hno : ∀ a ∈ repo, (a.google_id == some gid) = false)
    (hfid : repo.filter (fun a => a.id == u.id) = [u]) :
    selectByGoogleId (updateGoogleId repo u.id gid) gid =
      [{ u with google_id := some gid }] := by
  unfold selectByGoogleId updateGoogleId
  rw [List.filter_map]
  have hcong : repo.filter
      ((fun a => a.google_id == some gid) ∘
        (fun a => if a.id == u.id then { a with google_id := some gid } else a)) =
      repo.filter (fun a => a.id == u.id) := by
    apply List.filter_congr
    intro a ha
    simp only [Function.comp]
    by_cases hid : (a.id == u.id) = true
    · simp [hid]
    · rw [if_neg hid, hno a ha, eq_comm]
      exact Bool.eq_false_iff.mpr (fun hw => hid hw)
  rw [hcong, hfid]
  simp

/-- C5: the Google sign-in account resolution evaluates exactly three
branches in precedence order: a row matching the google_id is
returned with the table unchanged; otherwise a row matching the email
is returned and its google_id is set in the table; otherwise a new
row with the identity's name, email and google_id and no
password_hash is inserted and returned. -/
theorem resolve_external_precedence (repo : List Account) (gid nm em : String) :
    (∀ u, (selectByGoogleId repo gid).head? = some u →
      resolveExternal repo gid nm em = (u, repo)) ∧
    ((selectByGoogleId repo gid).head? = none →
      ∀ u, (selectByEmail repo em).head? = some u →
        resolveExternal repo gid nm em = (u, updateGoogleId repo u.id gid) ∧
        { u with google_id := some gid } ∈ (resolveExternal repo gid nm em).2) ∧
    ((selectByGoogleId repo gid).head? = none →
      (selectByEmail repo em).head? = none →
      resolveExternal repo gid nm em =
        (⟨nextId repo, nm, em, none, some gid⟩,
          repo ++ [⟨nextId repo, nm, em, none, some gid⟩])) := by
  refine ⟨?_, ?_, ?_⟩
  · intro u hu
    simp [resolveExternal, hu]
  · intro hg u hu
    have hmem : u ∈ repo :=
      List.mem_of_mem_filter (mem_of_head?_eq hu)
    constructor
    · simp [resolveExternal, hg, hu]
    · simp only [resolveExternal, hg, hu]
      have hfu : (if u.id == u.id then { u with google_id := some gid } else u)
          = { u with google_id := some gid } := by simp
      exact hfu ▸ List.mem_map_of_mem
        (fun a => if a.id == u.id then { a with google_id := some gid } else a) hmem
  · intro hg he
    simp [resolveExternal, hg, he]

/-- Witness for C5: each of the three branches exercised at a
concrete one-row (or empty) table. -/
theorem resolve_external_precedence_witness :
    resolveExternal [⟨1, "A", "a@x.com", some "H", some "g1"⟩] "g1" "N" "n@x.com" =
      (⟨1, "A", "a@x.com", some "H", some "g1"⟩,
        [⟨1, "A", "a@x.com", some "H", some "g1"⟩]) ∧
    (resolveExternal [⟨1, "A", "a@x.com", some "H", none⟩] "g9" "N" "a@x.com" =
      (⟨1, "A", "a@x.com", some "H", none⟩,
        [⟨1, "A", "a@x.com", some "H", some "g9"⟩]) ∧
      (⟨1, "A", "a@x.com", some "H", some "g9"⟩ : Account) ∈
        (resolveExternal [⟨1, "A", "a@x.com", some "H", none⟩] "g9" "N" "a@x.com").2) ∧
    resolveExternal [] "g1" "N" "n@x.com" =
      (⟨1, "N", "n@x.com", none, some "g1"⟩, [⟨1, "N", "n@x.com", none, some "g1"⟩]) := by
  refine ⟨?_, ?_, ?_⟩
  · exact (resolve_external_precedence
      [⟨1, "A", "a@x.com", some "H", some "g1"⟩] "g1" "N" "n@x.com").1
      ⟨1, "A", "a@x.com", some "H", some "g1"⟩ rfl
  · have h := (resolve_external_precedence
      [⟨1, "A", "a@x.com", some "H", none⟩] "g9" "N" "a@x.com").2.1
      rfl ⟨1, "A", "a@x.com", some "H", none⟩ rfl
    exact ⟨h.1, h.2⟩
  · exact (resolve_external_precedence [] "g1" "N" "n@x.com").2.2 rfl rfl

/-- C7: with distinct row ids and exactly one row carrying the
identity's email, resolving the same external identity twice returns
the same account both times (same id, email and name), leaves exactly
one row with that email, and creates no row. -/
theorem resolve_external_email_idempotent (repo : List Account)
    (gid nm em : String)
    (hnodup : (repo.map Account.id).Nodup)
    (hone : countEmail repo em = 1) :
    (resolveExternal (resolveExternal repo gid nm em).2 gid nm em).1.id =
      (resolveExternal repo gid nm em).1.id ∧
    (resolveExternal (resolveExternal repo gid nm em).2 gid nm em).1.email =
      (resolveExternal repo gid nm em).1.email ∧
    (resolveExternal (resolveExternal repo gid nm em).2 gid nm em).1.name =
      (resolveExternal repo gid nm em).1.name ∧
    countEmail (resolveExternal (resolveExternal repo gid nm em).2 gid nm em).2 em = 1 ∧
    (resolveExternal (resolveExternal repo gid nm em).2 gid nm em).2.length =
      repo.length := by
  cases hgid : (selectByGoogleId repo gid).head? with
  | some x =>
    have hr : resolveExternal repo gid nm em = (x, repo) := by
      simp [resolveExternal, hgid]
    simp [hr, hone]
  | none =>
    obtain ⟨u, hu⟩ : ∃ u, (selectByEmail repo em).head? = some u := by
      cases he : (selectByEmail repo em).head? with
      | some u => exact ⟨u, rfl⟩
      | none =>
        exfalso
        rw [List.head?_eq_none_iff] at he
        rw [countEmail, he] at hone
        simp at hone
    have hmem : u ∈ repo :=
      List.mem_of_mem_filter (mem_of_head?_eq hu)
    have hno : ∀ a ∈ repo, (a.google_id == some gid) = false := by
      rw [List.head?_eq_none_iff] at hgid
      have hnil := List.filter_eq_nil_iff.mp hgid
      intro a ha
      exact Bool.eq_false_iff.mpr (hnil a ha)
    have hfid : repo.filter (fun a => a.id == u.id) = [u] :=
      filter_id_eq_single repo u hmem hnodup
    have hsel2 : selectByGoogleId (updateGoogleId repo u.id gid) gid =
        [{ u with google_id := some gid }] :=
      selectByGoogleId_after_update repo u gid hno hfid
    have hr1 : resolveExternal repo gid nm em = (u, updateGoogleId repo u.id gid) := by
      simp [resolveExternal, hgid, hu]
    have hr2 : resolveExternal (updateGoogleId repo u.id gid) gid nm em =
        ({ u with google_id := some gid }, updateGoogleId repo u.id gid) := by
      simp [resolveExternal, hsel2]
    refine ⟨?_, ?_, ?_, ?_, ?_⟩ <;>
      simp only [hr1, hr2, countEmail_updateGoogleId]
    · exact hone
    · simp [updateGoogleId]

/-- Witness for C7: a one-row table with the email, a fresh
google id; both calls land on account 1 and the table keeps one row. -/
theorem resolve_external_email_idempotent_witness :
    (resolveExternal
        (resolveExternal [⟨1, "A", "a@x.com", some "H", none⟩] "g9" "N" "a@x.com").2
        "g9" "N" "a@x.com").1.id =
      (resolveExternal [⟨1, "A", "a@x.com", some "H", none⟩] "g9" "N" "a@x.com").1.id ∧
    (resolveExternal
        (resolveExternal [⟨1, "A", "a@x.com", some "H", none⟩] "g9" "N" "a@x.com").2
        "g9" "N" "a@x.com").1.email =
      (resolveExternal [⟨1, "A", "a@x.com", some "H", none⟩] "g9" "N" "a@x.com").1.email ∧
    (resolveExternal
        (resolveExternal [⟨1, "A", "a@x.com", some "H", none⟩] "g9" "N" "a@x.com").2
        "g9" "N" "a@x.com").1.name =
      (resolveExternal [⟨1, "A", "a@x.com", some "H", none⟩] "g9" "N" "a@x.com").1.name ∧
    countEmail
        (resolveExternal
          (resolveExternal [⟨1, "A", "a@x.com", some "H", none⟩] "g9" "N" "a@x.com").2
          "g9" "N" "a@x.com").2 "a@x.com" = 1 ∧
    (resolveExternal
        (resolveExternal [⟨1, "A", "a@x.com", some "H", none⟩] "g9" "N" "a@x.com").2
        "g9" "N" "a@x.com").2.length =
      ([⟨1, "A", "a@x.com", some "H", none⟩] : List Account).length :=
  resolve_external_email_idempotent [⟨1, "A", "a@x.com", some "H", none⟩]
    "g9" "N" "a@x.com" (by decide) rfl

/-- C10: every run of the Google sign-in handler either succeeds with
the 200 response or answers exactly 401 "Google authentication
failed" — whichever step threw (external verification or any
repository call), the caller sees the one collapsed failure and never
a distinct dependency error. -/
theorem google_auth_failure_collapse (verify : Except Unit VerifiedIdentity)
    (db : DbOracle) (cfg : Config) (now : Nat) :
    (∃ u, googleAuthHandler verify db cfg now = googleSuccess u cfg now) ∨
    googleAuthHandler verify db cfg now =
      ⟨401, "Google authentication failed", none, none⟩ := by
  cases verify with
  | error e => exact .inr rfl
  | ok p =>
    cases h1 : db.selectGid p.sub with
    | error e => right; simp [googleAuthHandler, h1]
    | ok rows =>
      cases h2 : rows.head? with
      | some u => left; exact ⟨u, by simp [googleAuthHandler, h1, h2]⟩
      | none =>
        cases h3 : db.selectEmail p.email with
        | error e => right; simp [googleAuthHandler, h1, h2, h3]
        | ok rows2 =>
          cases h4 : rows2.head? with
          | some u =>
            cases h5 : db.updateGid p.sub u.id with
            | error e => right; simp [googleAuthHandler, h1, h2, h3, h4, h5]
            | ok x => left; exact ⟨u, by simp [googleAuthHandler, h1, h2, h3, h4, h5]⟩
          | none =>
            cases h6 : db.insertUser p.name p.email p.sub with
            | error e => right; simp [googleAuthHandler, h1, h2, h3, h4, h6]
            | ok u => left; exact ⟨u, by simp [googleAuthHandler, h1, h2, h3, h4, h6]⟩

/-- Program counter of one in-flight Google sign-in request, one
state per awaited repository call of src/index.js lines 128-147:
`start` is about to run the google_id lookup, `afterGid` the email
lookup, `linking t` the UPDATE on row `t`, `creating` the INSERT;
`done` has sent its response. -/
inductive Pc where
  | start
  | afterGid
  | linking (target : Nat)
  | creating
  | done
  deriving DecidableEq, Repr

/-- One concurrent Google sign-in request: the external identity's
google id and name (all requests under study share one email, passed
separately) and the request's progress. -/
structure Request where
  gid : String
  name : String
  pc : Pc
  deriving DecidableEq, Repr

/-- One repository interaction of a request, from src/index.js lines
128-147, taken atomically.  Modelled from the spec: the `users` table
enforces the email-uniqueness invariant in its schema, which is not
part of src/, so the INSERT of the create branch is an atomic
check-and-insert that fails (the handler's catch answers 401 and
touches the table no further) when a row with the email already
exists; every other step is exactly one pool.query of the handler. -/
def reqStep (em : String) (repo : List Account) (r : Request) :
    List Account × Request :=
  match r.pc with
  | .start =>
    match (selectByGoogleId repo r.gid).head? with
    | some _ => (repo, { r with pc := .done })
    | none => (repo, { r with pc := .afterGid })
  | .afterGid =>
    match (selectByEmail repo em).head? with
    | some u => (repo, { r with pc := .linking u.id })
    | none => (repo, { r with pc := .creating })
  | .linking t => (updateGoogleId repo t r.gid, { r with pc := .done })
  | .creating =>
    match (selectByEmail repo em).head? with
    | some _ => (repo, { r with pc := .done })
    | none =>
      (repo ++ [⟨nextId repo, r.name, em, none, some r.gid⟩],
        { r with pc := .done })
  | .done => (repo, r)

/-- Scheduler step: request `i` (if it exists) performs its next
repository interaction. -/
def sysStep (em : String) (s : List Account × List Request) (i : Nat) :
    List Account × List Request :=
  match s.2.get? i with
  | none => s
  | some r => ((reqStep em s.1 r).1, s.2.set i (reqStep em s.1 r).2)

/-- Run an interleaving schedule: each entry names the request that
performs its next repository interaction. -/
def sysRun (em : String) (s : List Account × List Request) :
    List Nat → List Account × List Request
  | [] => s
  | i :: rest => sysRun em (sysStep em s i) rest

/-- Invariant of the interleaved system: at most one row ever carries
the email, and while no row carries it no request has linked or
finished and no row carries any request's google id. -/
def Inv (em : String) (repo : List Account) (reqs : List Request) : Prop :=
  countEmail repo em ≤ 1 ∧
  (countEmail repo em = 0 →
    (∀ a ∈ repo, ∀ r ∈ reqs, a.google_id ≠ some r.gid) ∧
    (∀ r ∈ reqs, r.pc = Pc.start ∨ r.pc = Pc.afterGid ∨ r.pc = Pc.creating))

/-- Helper: a nonempty email lookup means the email count is not 0. -/
theorem countEmail_ne_zero_of_head? (repo : List Account) (em : String)
    (u : Account) (h : (selectByEmail repo em).head? = some u) :
    countEmail repo em ≠ 0 := by
  intro h0
  unfold countEmail at h0
  rw [List.length_eq_zero] at h0
  rw [h0] at h
  simp at h

/-- Helper: appending a row carrying the email bumps its count. -/
theorem countEmail_append_same (repo : List Account) (em : String)
    (a : Account) (ha : a.email = em) :
    countEmail (repo ++ [a]) em = countEmail repo em + 1 := by
  unfold countEmail selectByEmail
  rw [List.filter_append]
  simp [ha]

/-- Helper: one scheduler step preserves the invariant. -/
theorem inv_sysStep (em : String) (s : List Account × List Request) (i : Nat)
    (hInv : Inv em s.1 s.2) : Inv em (sysStep em s i).1 (sysStep em s i).2 := by
  obtain ⟨repo, reqs⟩ := s
  obtain ⟨h1, h2⟩ := hInv
  cases hget : reqs.get? i with
  | none => simp only [sysStep, hget]; exact ⟨h1, h2⟩
  | some r =>
    have hrmem : r ∈ reqs := List.get?_mem hget
    simp only [sysStep, hget]
    cases hpc : r.pc with
    | start =>
      cases hsel : (selectByGoogleId repo r.gid).head? with
      | some u =>
        simp only [reqStep, hpc, hsel]
        refine ⟨h1, fun hc0 => ?_⟩
        exfalso
        obtain ⟨hA, _⟩ := h2 hc0
        have humem : u ∈ List.filter (fun a => a.google_id == some r.gid) repo :=
          mem_of_head?_eq hsel
        have hu1 : u ∈ repo := List.mem_of_mem_filter humem
        have hu2 := List.of_mem_filter humem
        simp only [beq_iff_eq] at hu2
        exact hA u hu1 r hrmem hu2
      | none =>
        simp only [reqStep, hpc, hsel]
        refine ⟨h1, fun hc0 => ?_⟩
        obtain ⟨hA, hB⟩ := h2 hc0
        constructor
        · intro a ha r2 hr2
          rcases List.mem_or_eq_of_mem_set hr2 with h | h
          · exact hA a ha r2 h
          · subst h; exact hA a ha r hrmem
        · intro r2 hr2
          rcases List.mem_or_eq_of_mem_set hr2 with h | h
          · exact hB r2 h
          · subst h; right; left; rfl
    | afterGid =>
      cases hsel : (selectByEmail repo em).head? with
      | some u =>
        simp only [reqStep, hpc, hsel]
        refine ⟨h1, fun hc0 => ?_⟩
        exact absurd hc0 (countEmail_ne_zero_of_head? repo em u hsel)
      | none =>
        simp only [reqStep, hpc, hsel]
        refine ⟨h1, fun hc0 => ?_⟩
        obtain ⟨hA, hB⟩ := h2 hc0
        constructor
        · intro a ha r2 hr2
          rcases List.mem_or_eq_of_mem_set hr2 with h | h
          · exact hA a ha r2 h
          · subst h; exact hA a ha r hrmem
        · intro r2 hr2
          rcases List.mem_or_eq_of_mem_set hr2 with h | h
          · exact hB r2 h
          · subst h; right; right; rfl
    | linking t =>
      simp only [reqStep, hpc]
      constructor
      · rw [countEmail_updateGoogleId]
        exact h1
      · intro hc0
        rw [countEmail_updateGoogleId] at hc0
        exfalso
        have h3 := (h2 hc0).2 r hrmem
        simp [hpc] at h3
    | creating =>
      cases hsel : (selectByEmail repo em).head? with
      | some u =>
        simp only [reqStep, hpc, hsel]
        refine ⟨h1, fun hc0 => ?_⟩
        exact absurd hc0 (countEmail_ne_zero_of_head? repo em u hsel)
      | none =>
        have hc0 : countEmail repo em = 0 := by
          rw [List.head?_eq_none_iff] at hsel
          unfold countEmail
          rw [hsel]
          rfl
        simp only [reqStep, hpc, hsel]
        have hplus := countEmail_append_same repo em
          ⟨nextId repo, r.name, em, none, some r.gid⟩ rfl
        constructor
        · rw [hplus, hc0]
        · intro hcz
          exfalso
          rw [hplus, hc0] at hcz
          simp at hcz
    | done =>
      simp only [reqStep, hpc]
      refine ⟨h1, fun hc0 => ?_⟩
      exfalso
      have h3 := (h2 hc0).2 r hrmem
      simp [hpc] at h3

/-- Helper: a whole schedule preserves the invariant. -/
theorem inv_sysRun (em : String) (s : List Account × List Request)
    (sched : List Nat) (hInv : Inv em s.1 s.2) :
    Inv em (sysRun em s sched).1 (sysRun em s sched).2 := by
  induction sched generalizing s with
  | nil => exact hInv
  | cons j t ih => exact ih (sysStep em s j) (inv_sysStep em s j hInv)

/-- Helper: scheduling never changes how many requests exist. -/
theorem sysRun_length (em : String) (s : List Account × List Request)
    (sched : List Nat) : (sysRun em s sched).2.length = s.2.length := by
  induction sched generalizing s with
  | nil => rfl
  | cons j t ih =>
    rw [sysRun, ih]
    unfold sysStep
    cases h : s.2.get? j <;> simp

/-- C9: under the schema's email-uniqueness constraint, any
interleaving of any positive number of Google sign-in requests
carrying the same brand-new email leaves exactly one row with that
email once every request has completed. -/
theorem concurrent_resolve_unique_email (em : String) (repo : List Account)
    (reqs : List Request) (sched : List Nat)
    (hne : reqs ≠ [])
    (hstart : ∀ r ∈ reqs, r.pc = Pc.start)
    (hemail : countEmail repo em = 0)
    (hgids : ∀ a ∈ repo, ∀ r ∈ reqs, a.google_id ≠ some r.gid)
    (hdone : ∀ r ∈ (sysRun em (repo, reqs) sched).2, r.pc = Pc.done) :
    countEmail (sysRun em (repo, reqs) sched).1 em = 1 := by
  have hInv0 : Inv em (repo, reqs).1 (repo, reqs).2 := by
    refine ⟨by simp [hemail], fun _ => ⟨hgids, fun r hr => .inl (hstart r hr)⟩⟩
  have hInv := inv_sysRun em (repo, reqs) sched hInv0
  obtain ⟨h1, h2⟩ := hInv
  have hlen : (sysRun em (repo, reqs) sched).2.length = reqs.length :=
    sysRun_length em (repo, reqs) sched
  have hne2 : (sysRun em (repo, reqs) sched).2 ≠ [] := by
    intro h0
    rw [h0] at hlen
    exact hne (List.length_eq_zero.mp hlen.symm)
  obtain ⟨r, hr⟩ := List.exists_mem_of_ne_nil _ hne2
  rcases Nat.eq_zero_or_pos (countEmail (sysRun em (repo, reqs) sched).1 em)
    with h0 | hpos
  · exfalso
    have h3 := (h2 h0).2 r hr
    rw [hdone r hr] at h3
    simp at h3
  · omega

/-- Witness for C9: two requests for the same new email, interleaved
so the first inserts and the second links onto the inserted row; one
row with the email remains. -/
theorem concurrent_resolve_unique_email_witness :
    countEmail
      (sysRun "x@y.com"
        ([], [⟨"g1", "A", Pc.start⟩, ⟨"g2", "B", Pc.start⟩])
        [0, 0, 0, 1, 1, 1]).1 "x@y.com" = 1 :=
  concurrent_resolve_unique_email "x@y.com" []
    [⟨"g1", "A", Pc.start⟩, ⟨"g2", "B", Pc.start⟩] [0, 0, 0, 1, 1, 1]
    (by decide) (by decide) rfl (by simp) (by decide)

end ChatbotBackend
